import Mathlib

/-!
Verification development for the KI-Konzil dynamic graph builder.

This file is a shallow embedding of the blueprint compiler and graph
execution engine found in `backend/services/dynamic_graph_builder.py`
(together with the shared constants of `backend/state.py` and the parsing
logic mirrored in `backend/agents/critic_agent.py`), plus theorems
settling the specification claims about it.

Modelling conventions:
* Python strings become `String` / `List Char`; Python float scores become
  exact rationals `ℚ` (constructed with `mkRat`, which the kernel reduces).
* The LLM "model capability" is an abstract function
  `List Message → LLMResponse`; an instrumentation log (the list of message
  lists sent to the capability) records how often and with what input the
  capability was invoked.
* Fallible Python code (raising `ValueError`, `KeyError`, tool exceptions)
  becomes `Except String _`.
-/

/-! ## Python-style string helpers -/

/-- Python whitespace class as used by `\s` (ASCII part) and `str.strip`. -/
def pyIsSpace (c : Char) : Bool :=
  c == ' ' || c == '\t' || c == '\n' || c == '\r' ||
    c == Char.ofNat 11 || c == Char.ofNat 12

/-- Remove leading and trailing whitespace, as Python `str.strip()`. -/
def stripChars (cs : List Char) : List Char :=
  ((cs.dropWhile pyIsSpace).reverse.dropWhile pyIsSpace).reverse

/-- Python `str.strip()` on `String`. -/
def pyStrip (s : String) : String :=
  String.mk (stripChars s.data)

/-- Value of a run of decimal digit characters. -/
def digitsToNat (ds : List Char) : Nat :=
  ds.foldl (fun a c => a * 10 + (c.toNat - 48)) 0

/-- Parse the regex group `\d+(?:\.\d+)?` at the head of the input, returning
the exact rational value of the decimal literal (Python would call
`float(...)` here; we keep the exact value of the literal). -/
def parseNumberQ (cs : List Char) : Option ℚ :=
  let ds := cs.takeWhile Char.isDigit
  let rest := cs.dropWhile Char.isDigit
  if ds.isEmpty then none
  else
    match rest with
    | '.' :: rest2 =>
      let fs := rest2.takeWhile Char.isDigit
      if fs.isEmpty then some (mkRat (digitsToNat ds) 1)
      else some (mkRat (digitsToNat ds * 10 ^ fs.length + digitsToNat fs) (10 ^ fs.length))
    | _ => some (mkRat (digitsToNat ds) 1)

/-- Try to match `SCORE:\s*(\d+(?:\.\d+)?)` at the head of the input. -/
def matchScoreAt : List Char → Option ℚ
  | 'S' :: 'C' :: 'O' :: 'R' :: 'E' :: ':' :: rest =>
    parseNumberQ (rest.dropWhile pyIsSpace)
  | _ => none

/-- Embedding of `re.search(r"SCORE:\s*(\d+(?:\.\d+)?)", content)`:
the leftmost position at which the pattern matches, if any. -/
def findScore : List Char → Option ℚ
  | [] => none
  | c :: rest =>
    match matchScoreAt (c :: rest) with
    | some q => some q
    | none => findScore rest

/-- Try to match the literal `FEEDBACK:` at the head of the input, returning
the remaining suffix. -/
def matchFeedbackAt : List Char → Option (List Char)
  | 'F' :: 'E' :: 'E' :: 'D' :: 'B' :: 'A' :: 'C' :: 'K' :: ':' :: rest => some rest
  | _ => none

/-- Embedding of `re.search(r"FEEDBACK:\s*(.*)", content, re.DOTALL)`: the
suffix after the leftmost occurrence of `FEEDBACK:`, if any (the `\s*` prefix
of the capture group is dropped separately by the caller, mirroring the
regex). -/
def findFeedback : List Char → Option (List Char)
  | [] => none
  | c :: rest =>
    match matchFeedbackAt (c :: rest) with
    | some suffix => some suffix
    | none => findFeedback rest

/-- Lookup in a Python `dict` built by insertion from an association list:
a later binding for the same key overwrites an earlier one. -/
def dictLookup {α : Type} (pairs : List (String × α)) (k : String) : Option α :=
  (pairs.reverse.find? (fun p => p.fst == k)).map (fun p => p.snd)

/-- Helper for `firstDedup`: drop elements already seen. -/
def firstDedupAux : List String → List String → List String
  | [], _ => []
  | x :: xs, seen =>
    if x ∈ seen then firstDedupAux xs seen else x :: firstDedupAux xs (x :: seen)

/-- Deduplicate keeping the first occurrence of each element, which is the
iteration order of a Python `dict` keyed by insertion. -/
def firstDedup (l : List String) : List String :=
  firstDedupAux l []

/-- Python `min(a, b)` on two numbers. -/
def pyMin (a b : ℚ) : ℚ :=
  if b < a then b else a

/-- Python `max(a, b)` on two numbers. -/
def pyMax (a b : ℚ) : ℚ :=
  if b > a then b else a

/-- Characters of a string lowercased, as Python `str.lower()` (ASCII). -/
def lowerChars (cs : List Char) : List Char :=
  cs.map Char.toLower

/-- Does `hay` start with `needle`? -/
def startsWithChars : List Char → List Char → Bool
  | [], _ => true
  | _ :: _, [] => false
  | p :: ps, c :: cs => p == c && startsWithChars ps cs

/-- Python `needle in hay` substring test. -/
def hasSubChars (needle : List Char) : List Char → Bool
  | [] => needle.isEmpty
  | c :: cs => startsWithChars needle (c :: cs) || hasSubChars needle cs

/-- A single apostrophe character as a string (used inside prompt text). -/
def apostrophe : String :=
  String.singleton (Char.ofNat 39)

/-- Left-pad the decimal rendering of `n` with zeros to `width` digits. -/
def natDecimalPad (n : Nat) (width : Nat) : String :=
  let s := toString n
  String.mk (List.replicate (width - s.length) '0') ++ s

/-- Rendering of a rational score the way Python renders the corresponding
float in an f-string: for a value with a finite decimal expansion this is the
shortest decimal form with at least one fractional digit (`8.0`, `9.5`,
`0.01`). Critic scores always have a finite decimal expansion, so the
fallback branch is unreachable in practice. -/
def qRepr (q : ℚ) : String :=
  let d := q.den
  match (List.range (d + 1)).find? (fun k => (10 ^ k) % d == 0) with
  | some k =>
    let scaled := q.num.natAbs * 10 ^ k / d
    let ip := scaled / 10 ^ k
    let frac := scaled % 10 ^ k
    let sign := if q.num < 0 then "-" else ""
    if k == 0 then sign ++ toString ip ++ ".0"
    else sign ++ toString ip ++ "." ++ natDecimalPad frac k
  | none => toString q.num ++ "/" ++ toString d

/-! ## Constants from `backend/state.py` -/

/-- Critic score threshold for approval (`state.py`). -/
def APPROVAL_THRESHOLD : ℚ := 8

/-- Safety limit on rework iterations (`state.py`). -/
def MAX_ITERATIONS : Nat := 5

/-! ## Messages, responses and tools -/

/-- A tool-invocation request carried by a model response
(LangChain `tool_calls` entry: name, args, id). The arguments are kept as an
opaque string blob. -/
structure ToolCallReq where
  name : String
  args : String
  id : String
deriving DecidableEq, Repr

/-- A model-capability response: text content plus tool-invocation requests. -/
structure LLMResponse where
  content : String
  tool_calls : List ToolCallReq
deriving DecidableEq, Repr

/-- LangChain message kinds used by the builder: `SystemMessage`,
`HumanMessage`, the AI response message, and `ToolMessage content tool_call_id`. -/
inductive Message where
  | system : String → Message
  | human : String → Message
  | ai : LLMResponse → Message
  | tool : String → String → Message
deriving DecidableEq, Repr

/-- A registered tool: its name and its execution function. A Python
exception during execution is modelled as `Except.error` with the exception
text. -/
structure ToolDef where
  name : String
  run : String → Except String String

/-- Embedding of the tool-call dispatch inside `_invoke_with_tools`: look the
requested name up in `tool_map` (a Python dict keyed by tool name); execute
the tool, converting an unknown name or a raised exception into the literal
inline error string from the source. -/
def executeToolCall (tools : List ToolDef) (tc : ToolCallReq) : String :=
  match dictLookup (tools.map (fun t => (t.name, t))) tc.name with
  | some t =>
    match t.run tc.args with
    | Except.ok r => r
    | Except.error exc => "[Tool Error] " ++ exc
  | none => "[Tool Error] Unknown tool: " ++ tc.name

/-- Embedding of `_invoke_with_tools`. The second component of the result is
the instrumentation log: the message list of every model-capability
invocation performed, in order (binding tools to the capability does not
change the capability itself, so `llm` stands for both `llm` and
`llm_with_tools` of the source). -/
def invokeWithTools (llm : List Message → LLMResponse) (messages : List Message)
    (tools : List ToolDef) : LLMResponse × List (List Message) :=
  if tools.isEmpty then (llm messages, [messages])
  else
    let response := llm messages
    if response.tool_calls.isEmpty then (response, [messages])
    else
      let toolMessages := response.tool_calls.map
        (fun tc => Message.tool (executeToolCall tools tc) tc.id)
      let finalMessages := messages ++ Message.ai response :: toolMessages
      (llm finalMessages, [messages, finalMessages])

/-! ## Council state (`backend/state.py`) and LangGraph state updates -/

/-- Embedding of `CouncilState` (`state.py`). Scores are exact rationals. -/
structure CouncilState where
  input_topic : String
  current_draft : String
  feedback_history : List String
  route_decision : String
  messages : List Message
  iteration_count : Nat
  critic_score : Option ℚ
  run_id : String
  active_node : String
deriving DecidableEq, Repr

/-- A partial state update as returned by a LangGraph node function: a dict
holding only the keys the node wants to update. -/
structure StateUpdate where
  current_draft : Option String := none
  feedback_history : Option (List String) := none
  route_decision : Option String := none
  messages : Option (List Message) := none
  iteration_count : Option Nat := none
  critic_score : Option (Option ℚ) := none
  active_node : Option String := none
deriving DecidableEq, Repr

/-- LangGraph merge of a partial update into the state: `feedback_history`
and `messages` carry the `operator.add` reducer and concatenate; every other
present key overwrites. -/
def applyUpdate (s : CouncilState) (u : StateUpdate) : CouncilState :=
  { input_topic := s.input_topic
    current_draft := u.current_draft.getD s.current_draft
    feedback_history := s.feedback_history ++ u.feedback_history.getD []
    route_decision := u.route_decision.getD s.route_decision
    messages := s.messages ++ u.messages.getD []
    iteration_count := u.iteration_count.getD s.iteration_count
    critic_score := u.critic_score.getD s.critic_score
    run_id := s.run_id
    active_node := u.active_node.getD s.active_node }

/-! ## Model factory (`_MODEL_MAP`, `_get_llm`) -/

/-- The recognized frontend model names, the keys of `_MODEL_MAP`. -/
def MODEL_MAP_KEYS : List String :=
  ["claude-3-5-sonnet", "gpt-4o"]

/-- The error text raised by `_get_llm` for an unrecognized model name. -/
def unknownModelError (model_name : String) : String :=
  "Unknown model " ++ apostrophe ++ model_name ++ apostrophe ++
    ". Supported models: [" ++ apostrophe ++ "claude-3-5-sonnet" ++ apostrophe ++
    ", " ++ apostrophe ++ "gpt-4o" ++ apostrophe ++ "]"

/-- Embedding of `_get_llm`: resolve a model name to a chat-model capability,
or raise `ValueError` for an unknown name. The abstract `invoker` supplies
the capability behind each recognized name. -/
def getLLM (invoker : String → List Message → LLMResponse) (model_name : String) :
    Except String (List Message → LLMResponse) :=
  if MODEL_MAP_KEYS.contains model_name then Except.ok (invoker model_name)
  else Except.error (unknownModelError model_name)

/-! ## Critic node (`_make_critic_node` in `dynamic_graph_builder.py`) -/

/-- The format instructions appended to a critic-like node's system prompt. -/
def criticFormatInstructions : String :=
  "\n\nIMPORTANT: You must respond in EXACTLY this format:\n\n" ++
    "SCORE: <integer 0-10>\n" ++
    "VERDICT: <\"approve\" if score >= 8, otherwise \"rework\">\n" ++
    "FEEDBACK:\n" ++
    "<detailed, actionable feedback>\n\n" ++
    "Scoring: 0-3 poor, 4-6 adequate, 7 good, 8-9 high quality, 10 exceptional."

/-- The full system prompt of a critic node (`critic_system` in the source). -/
def criticSystemText (system_prompt : String) : String :=
  system_prompt ++ criticFormatInstructions

/-- The user message content a critic node sends to the model. -/
def criticUserContent (topic draft : String) : String :=
  "Evaluate this draft on the topic " ++ apostrophe ++ topic ++ apostrophe ++
    ":\n\n" ++ draft

/-- The synthetic feedback entry appended by the forced-approval safety valve. -/
def autoApproveMessage : String :=
  "[Auto-approved after " ++ toString MAX_ITERATIONS ++ " iterations]"

/-- Score extraction of the critic node: the regex result defaulted to `0.0`
on parse failure, then clamped into `[0, 10]` by `max(0.0, min(10.0, score))`. -/
def criticParsedScore (content : String) : ℚ :=
  pyMax 0 (pyMin 10 ((findScore content.data).getD 0))

/-- Feedback extraction of the critic node: the stripped `FEEDBACK:` capture
when present, else the stripped raw response content. -/
def criticFeedbackText (content : String) : String :=
  match findFeedback content.data with
  | some suffix => String.mk (stripChars (suffix.dropWhile pyIsSpace))
  | none => pyStrip content

/-- Embedding of the node function returned by `_make_critic_node`. The
result carries the partial state update together with the instrumentation
log of model-capability invocations (empty means no model was invoked). -/
def criticNode (invoker : String → List Message → LLMResponse) (node_id : String)
    (system_prompt : String) (model_name : String) (tools : List ToolDef)
    (state : CouncilState) : Except String (StateUpdate × List (List Message)) :=
  if state.iteration_count ≥ MAX_ITERATIONS then
    Except.ok
      ({ route_decision := some "approve"
         critic_score := some (some APPROVAL_THRESHOLD)
         feedback_history := some [autoApproveMessage]
         messages := some []
         active_node := some node_id }, [])
  else
    match getLLM invoker model_name with
    | Except.error e => Except.error e
    | Except.ok llm =>
      let system_msg := Message.system (criticSystemText system_prompt)
      let user_msg := Message.human (criticUserContent state.input_topic state.current_draft)
      let invoked := invokeWithTools llm [system_msg, user_msg] tools
      let response := invoked.fst
      let score := criticParsedScore response.content
      let feedback := criticFeedbackText response.content
      let route_decision := if score ≥ APPROVAL_THRESHOLD then "approve" else "rework"
      let base : StateUpdate :=
        { critic_score := some (some score)
          route_decision := some route_decision
          messages := some [system_msg, user_msg, Message.ai response]
          active_node := some node_id }
      if route_decision == "rework" then
        Except.ok
          ({ base with
             feedback_history := some ["Score: " ++ qRepr score ++ "/10\n" ++ feedback] },
           invoked.snd)
      else Except.ok (base, invoked.snd)

/-! ## Generic agent node (`_make_agent_node`) -/

/-- The user message content a generic agent node builds from the state. -/
def agentUserContent (state : CouncilState) : String :=
  if state.current_draft == "" then
    "Please work on the following topic:\n\n" ++ state.input_topic
  else if state.feedback_history.isEmpty then
    "Topic: " ++ state.input_topic ++ "\n\nCurrent draft:\n" ++ state.current_draft ++
      "\n\nPlease review and improve this draft."
  else
    let feedback_block := String.intercalate "\n\n---\n"
      ((state.feedback_history.enum).map
        (fun p => "Feedback round " ++ toString (p.fst + 1) ++ ":\n" ++ p.snd))
    "Topic: " ++ state.input_topic ++ "\n\nCurrent draft:\n" ++ state.current_draft ++
      "\n\nFeedback (" ++ toString state.feedback_history.length ++ " round(s)):\n\n" ++
      feedback_block ++ "\n\nPlease produce an improved version."

/-- Embedding of the node function returned by `_make_agent_node`. -/
def agentNode (invoker : String → List Message → LLMResponse) (node_id : String)
    (system_prompt : String) (model_name : String) (tools : List ToolDef)
    (state : CouncilState) : Except String (StateUpdate × List (List Message)) :=
  match getLLM invoker model_name with
  | Except.error e => Except.error e
  | Except.ok llm =>
    let system_msg := Message.system system_prompt
    let user_msg := Message.human (agentUserContent state)
    let invoked := invokeWithTools llm [system_msg, user_msg] tools
    let response := invoked.fst
    Except.ok
      ({ current_draft := some response.content
         messages := some [system_msg, user_msg, Message.ai response]
         active_node := some node_id
         iteration_count := some (state.iteration_count + 1) }, invoked.snd)

/-! ## Blueprint model and conditional router -/

/-- A blueprint node as consumed by the builder. `systemPrompt` and `model`
are always present in the frontend blueprint schema; the builder's
`node.get(..., default)` fallbacks are therefore not modelled separately. -/
structure ToolsConfig where
  webSearch : Bool := false
  pdfReader : Bool := false
deriving DecidableEq, Repr

/-- A blueprint node specification. -/
structure NodeSpec where
  id : String
  label : String
  systemPrompt : String
  model : String
  tools : ToolsConfig := {}
deriving DecidableEq, Repr

/-- A blueprint edge specification. `condition` is only meaningful on
conditional edges; the builder never reads it on linear edges, so a plain
string with `""` for absent is a faithful model. -/
structure EdgeSpec where
  id : String
  source : String
  target : String
  type : String
  condition : String := ""
deriving DecidableEq, Repr

/-- A blueprint, restricted to the fields `build_graph_from_blueprint`
actually reads (`version` and `name` are never consulted). -/
structure Blueprint where
  nodes : List NodeSpec
  edges : List EdgeSpec
deriving DecidableEq, Repr

/-- The LangGraph `END` marker. -/
def ENDid : String := "__end__"

/-- Python truthiness of an optional string (`if linear_target:`): `None`
and the empty string are falsy. -/
def pyTruthyOptStr : Option String → Bool
  | some s => s != ""
  | none => false

/-- Embedding of the routing function returned by `_make_conditional_router`:
match the routing signal against the condition map (a Python dict, so a later
edge with the same condition label overwrites an earlier one), else a truthy
linear fallback, else the first conditional edge's target, else `END`. -/
def makeRouter (conditional_edges : List EdgeSpec) (linear_target : Option String)
    (state : CouncilState) : String :=
  let condition_map := conditional_edges.map (fun e => (e.condition, e.target))
  match dictLookup condition_map state.route_decision with
  | some t => t
  | none =>
    if pyTruthyOptStr linear_target then linear_target.getD ""
    else
      match conditional_edges with
      | e :: _ => e.target
      | [] => ENDid

/-! ## Topology inference and graph assembly (`build_graph_from_blueprint`) -/

/-- All edge targets (`targets = {e["target"] for e in edges}`; membership
tests only, so a list is a faithful model of the Python set). -/
def edgeTargets (edges : List EdgeSpec) : List String :=
  edges.map (fun e => e.target)

/-- All edge sources (`sources = {e["source"] for e in edges}`). -/
def edgeSources (edges : List EdgeSpec) : List String :=
  edges.map (fun e => e.source)

/-- Entry candidates: ids of nodes with no incoming edge, in declaration
order (`entry_candidates` in the source). -/
def entryCandidates (nodes : List NodeSpec) (edges : List EdgeSpec) : List String :=
  (nodes.filter (fun n => !(edgeTargets edges).contains n.id)).map (fun n => n.id)

/-- Entry-point inference: the first entry candidate, falling back to the
first node in declaration order when every node has an incoming edge. The
`""` case is unreachable because the builder rejects empty node lists first. -/
def entryNodeId (nodes : List NodeSpec) (edges : List EdgeSpec) : String :=
  match entryCandidates nodes edges with
  | c :: _ => c
  | [] =>
    match nodes with
    | n :: _ => n.id
    | [] => ""

/-- Terminal nodes: ids of nodes with no outgoing edge. -/
def terminalNodeIds (nodes : List NodeSpec) (edges : List EdgeSpec) : List String :=
  (nodes.filter (fun n => !(edgeSources edges).contains n.id)).map (fun n => n.id)

/-- The `linear` group of `edges_by_source[src]`, in declaration order. -/
def linearEdgesFrom (edges : List EdgeSpec) (src : String) : List EdgeSpec :=
  (edges.filter (fun e => e.source == src)).filter (fun e => e.type != "conditional")

/-- The `conditional` group of `edges_by_source[src]`, in declaration order. -/
def conditionalEdgesFrom (edges : List EdgeSpec) (src : String) : List EdgeSpec :=
  (edges.filter (fun e => e.source == src)).filter (fun e => e.type == "conditional")

/-- The linear fallback target the builder passes to the router for `src`
(`linear[0]["target"] if linear else None`). -/
def linearTargetFrom (edges : List EdgeSpec) (src : String) : Option String :=
  (linearEdgesFrom edges src).head?.map (fun e => e.target)

/-- The node-id references the builder actually registers with the underlying
graph for source `src`: with conditional edges present, the branch source,
every conditional target (via `route_map`), and the truthy linear fallback
(`if linear_target: route_map[linear_target] = linear_target`); with only
linear edges, the single `add_edge(source_id, linear[0]["target"])`. All
linear edges after the first are silently dropped. -/
def registeredRefsFrom (edges : List EdgeSpec) (src : String) : List String :=
  let conditional := conditionalEdgesFrom edges src
  let lt := linearTargetFrom edges src
  if !conditional.isEmpty then
    src :: (conditional.map (fun e => e.target) ++
      (if pyTruthyOptStr lt then [lt.getD ""] else []))
  else
    match linearEdgesFrom edges src with
    | e :: _ => [src, e.target]
    | [] => []

/-- All node-id references registered with the underlying graph by the edge
loop, iterating sources in `edges_by_source` insertion order. The entry point
and the terminal-to-`END` edges only reference declared node ids and `END`,
so they add nothing here. -/
def registeredEdgeRefs (edges : List EdgeSpec) : List String :=
  ((firstDedup (edgeSources edges)).map (registeredRefsFrom edges)).flatten

/-- The declared node ids of a blueprint. -/
def nodeIds (bp : Blueprint) : List String :=
  bp.nodes.map (fun n => n.id)

/-- Duplicate-free check on node ids (the underlying graph substrate rejects
registering the same node id twice). -/
def nodeIdsDupFree (bp : Blueprint) : Bool :=
  (firstDedup (nodeIds bp)).length == (nodeIds bp).length

/-- Modelled from the spec: the graph-assembly substrate (the external
StateGraph library, which is not part of this repository's sources) checks at
compile time that every edge reference registered with the graph names a
declared node, and fails compilation otherwise -- the spec's
"`InvalidEdgeReference` -- compile-time, fatal to compilation, surfaced
immediately to the caller". Which references get registered is decided by
the repository's own code and embedded faithfully in `registeredEdgeRefs`. -/
def compileRefsOk (bp : Blueprint) : Bool :=
  (registeredEdgeRefs bp.edges).all (fun r => (nodeIds bp).contains r)

/-- The compiled graph, as the data the builder derives from a blueprint.
Step functions are recovered from the node specifications by `compileStep`. -/
structure CompiledGraph where
  nodes : List NodeSpec
  edges : List EdgeSpec
  entry_node : String
  terminal_nodes : List String
deriving DecidableEq, Repr

/-- Embedding of `build_graph_from_blueprint`: reject an empty node list,
then register nodes and edges and compile, with the substrate's compile-time
validation modelled by `nodeIdsDupFree` and `compileRefsOk`. -/
def build_graph_from_blueprint (bp : Blueprint) : Except String CompiledGraph :=
  if bp.nodes.isEmpty then Except.error "Blueprint has no nodes."
  else if !nodeIdsDupFree bp then Except.error "Node id registered twice"
  else if !compileRefsOk bp then Except.error "Found edge referencing unknown node"
  else
    Except.ok
      { nodes := bp.nodes
        edges := bp.edges
        entry_node := entryNodeId bp.nodes bp.edges
        terminal_nodes := terminalNodeIds bp.nodes bp.edges }

/-! ## Step compilation (`_is_critic_like`, node registration loop) -/

/-- The critic-detection keyword list `_CRITIC_KEYWORDS`. -/
def CRITIC_KEYWORDS : List String :=
  ["critic", "kritik", "bewert", "evaluat", "review", "score"]

/-- Embedding of `_is_critic_like`: does the lowercased prompt contain any
critic keyword? -/
def isCriticLike (system_prompt : String) : Bool :=
  CRITIC_KEYWORDS.any (fun kw => hasSubChars kw.data (lowerChars system_prompt.data))

/-- Embedding of `_resolve_tools`: map the node's tools config to the bound
tool objects (the concrete `web_search` / `pdf_search` tools are abstract
capabilities here). -/
def resolveTools (webTool pdfTool : ToolDef) (cfg : ToolsConfig) : List ToolDef :=
  (if cfg.webSearch then [webTool] else []) ++ (if cfg.pdfReader then [pdfTool] else [])

/-- The step function the builder registers for a node: a critic node when
`_is_critic_like` fires on its prompt, else a generic agent node. -/
def compileStep (invoker : String → List Message → LLMResponse)
    (webTool pdfTool : ToolDef) (n : NodeSpec) (state : CouncilState) :
    Except String (StateUpdate × List (List Message)) :=
  let tools := resolveTools webTool pdfTool n.tools
  if isCriticLike n.systemPrompt then
    criticNode invoker n.id n.systemPrompt n.model tools state
  else
    agentNode invoker n.id n.systemPrompt n.model tools state

/-- Is an `Except` result a success? -/
def exceptOk {ε α : Type} : Except ε α → Bool
  | Except.ok _ => true
  | Except.error _ => false

/-! ## Concrete fixtures shared by witnesses and counterexamples -/

/-- A model capability that always returns the same response, regardless of
model name and input messages. -/
def constInvoker (resp : LLMResponse) : String → List Message → LLMResponse :=
  fun _ _ => resp

/-- The empty model response. -/
def emptyResponse : LLMResponse :=
  { content := "", tool_calls := [] }

/-- A fresh council state as created at run start. -/
def baseState : CouncilState :=
  { input_topic := "topic"
    current_draft := "draft"
    feedback_history := []
    route_decision := ""
    messages := []
    iteration_count := 0
    critic_score := none
    run_id := "run-1"
    active_node := "" }

/-! ## C1: the evaluator safety valve -/

/-- C1: for every evaluator-step execution whose input context has
`iterationCount ≥ MAX_ITERATIONS` (= 5), the step returns routing signal
"approve" and evaluation score `APPROVAL_THRESHOLD` (= 8), appends the
synthetic forced-approval entry to the feedback log, and performs no
model-capability invocation (the invocation log is empty). -/
theorem C1_safety_valve_forces_approval
    (invoker : String → List Message → LLMResponse)
    (node_id system_prompt model_name : String) (tools : List ToolDef)
    (state : CouncilState) (h : state.iteration_count ≥ MAX_ITERATIONS) :
    ∃ u : StateUpdate,
      criticNode invoker node_id system_prompt model_name tools state =
        Except.ok (u, []) ∧
      u.route_decision = some "approve" ∧
      u.critic_score = some (some APPROVAL_THRESHOLD) ∧
      APPROVAL_THRESHOLD = 8 ∧
      u.feedback_history = some [autoApproveMessage] ∧
      (applyUpdate state u).feedback_history =
        state.feedback_history ++ [autoApproveMessage] ∧
      (applyUpdate state u).route_decision = "approve" := by
  unfold criticNode
  rw [if_pos h]
  exact ⟨_, rfl, rfl, rfl, rfl, rfl, rfl, rfl⟩

/-- State at the iteration ceiling, used to instantiate C1. -/
def c1State : CouncilState :=
  { baseState with iteration_count := 5 }

/-- Witness for C1 at a concrete state with `iteration_count = 5`. -/
theorem C1_safety_valve_forces_approval_witness :
    c1State.iteration_count ≥ MAX_ITERATIONS ∧
    ∃ u : StateUpdate,
      criticNode (constInvoker emptyResponse) "critic-1" "You are a critic."
          "claude-3-5-sonnet" [] c1State = Except.ok (u, []) ∧
      u.route_decision = some "approve" ∧
      u.critic_score = some (some APPROVAL_THRESHOLD) ∧
      APPROVAL_THRESHOLD = 8 ∧
      u.feedback_history = some [autoApproveMessage] ∧
      (applyUpdate c1State u).feedback_history =
        c1State.feedback_history ++ [autoApproveMessage] ∧
      (applyUpdate c1State u).route_decision = "approve" :=
  ⟨by decide,
   C1_safety_valve_forces_approval (constInvoker emptyResponse) "critic-1"
     "You are a critic." "claude-3-5-sonnet" [] c1State (by decide)⟩

/-! ## C4: score parsing, clamping and threshold routing -/

/-- The final response of the tool sub-loop under a constant capability is
that capability's response. -/
theorem invokeWithTools_const_fst (resp : LLMResponse) (messages : List Message)
    (tools : List ToolDef) :
    (invokeWithTools (fun _ => resp) messages tools).fst = resp := by
  obtain ⟨content, tcs⟩ := resp
  cases tools with
  | nil => rfl
  | cons t ts =>
    cases tcs with
    | nil => rfl
    | cons a as => rfl

/-- Recognized model names resolve to the invoker's capability. -/
theorem getLLM_claude (invoker : String → List Message → LLMResponse) :
    getLLM invoker "claude-3-5-sonnet" = Except.ok (invoker "claude-3-5-sonnet") :=
  rfl

/-- C4: for every evaluator model response whose text contains `SCORE: x`
(formally: the embedded `re.search` for the score pattern returns `x`), the
evaluator step records the score `clamp(x, 0, 10)` and routes "approve" when
the clamped score is at least 8 (`APPROVAL_THRESHOLD`), else "rework". -/
theorem C4_score_clamped_and_routed (resp : LLMResponse) (x : ℚ)
    (hx : findScore resp.content.data = some x)
    (node_id system_prompt : String) (tools : List ToolDef) (state : CouncilState)
    (hit : state.iteration_count < MAX_ITERATIONS) :
    ∃ u : StateUpdate, ∃ calls : List (List Message),
      criticNode (fun _ _ => resp) node_id system_prompt "claude-3-5-sonnet"
          tools state = Except.ok (u, calls) ∧
      u.critic_score = some (some (pyMax 0 (pyMin 10 x))) ∧
      u.route_decision =
        some (if pyMax 0 (pyMin 10 x) ≥ APPROVAL_THRESHOLD then "approve" else "rework") := by
  have hlt : ¬ state.iteration_count ≥ MAX_ITERATIONS := Nat.not_le.mpr hit
  have hscore : criticParsedScore resp.content = pyMax 0 (pyMin 10 x) := by
    unfold criticParsedScore
    rw [hx]
    rfl
  unfold criticNode
  rw [if_neg hlt, getLLM_claude]
  simp only [invokeWithTools_const_fst, hscore]
  by_cases h8 : pyMax 0 (pyMin 10 x) ≥ APPROVAL_THRESHOLD
  · rw [if_pos h8]
    rw [if_neg (by decide : ¬ (("approve" : String) == "rework") = true)]
    exact ⟨_, _, rfl, rfl, rfl⟩
  · rw [if_neg h8]
    rw [if_pos (by decide : (("rework" : String) == "rework") = true)]
    exact ⟨_, _, rfl, rfl, rfl⟩

/-- A model response carrying `SCORE: 9`, used to instantiate C4. -/
def c4Response : LLMResponse :=
  { content := "SCORE: 9\nVERDICT: approve\nFEEDBACK:\nSolid work.", tool_calls := [] }

/-- Witness for C4 at a concrete response with `SCORE: 9`: the recorded score
is 9 and the routing signal is "approve". -/
theorem C4_score_clamped_and_routed_witness :
    findScore c4Response.content.data = some 9 ∧
    baseState.iteration_count < MAX_ITERATIONS ∧
    (∃ u : StateUpdate, ∃ calls : List (List Message),
      criticNode (fun _ _ => c4Response) "critic-1" "You are a critic."
          "claude-3-5-sonnet" [] baseState = Except.ok (u, calls) ∧
      u.critic_score = some (some (pyMax 0 (pyMin 10 9))) ∧
      u.route_decision =
        some (if pyMax 0 (pyMin 10 9) ≥ APPROVAL_THRESHOLD then "approve" else "rework")) :=
  ⟨by decide, by decide,
   C4_score_clamped_and_routed c4Response 9 (by decide) "critic-1" "You are a critic."
     [] baseState (by decide)⟩

/-! ## C7: tolerant handling of unparsable evaluator responses -/

/-- C7 (amended): for every evaluator model response with no parsable
`SCORE` line, the evaluator step does not fail: it records score 0 and
routing signal "rework" and execution continues; the feedback text used in
the appended feedback entry is the `FEEDBACK:` capture when one is present,
and the whitespace-stripped raw response text otherwise. -/
theorem C7_parse_failure_tolerated (resp : LLMResponse)
    (hs : findScore resp.content.data = none)
    (node_id system_prompt : String) (tools : List ToolDef) (state : CouncilState)
    (hit : state.iteration_count < MAX_ITERATIONS) :
    ∃ u : StateUpdate, ∃ calls : List (List Message),
      criticNode (fun _ _ => resp) node_id system_prompt "claude-3-5-sonnet"
          tools state = Except.ok (u, calls) ∧
      u.critic_score = some (some 0) ∧
      u.route_decision = some "rework" ∧
      u.feedback_history = some ["Score: 0.0/10\n" ++ criticFeedbackText resp.content] ∧
      (findFeedback resp.content.data = none →
        u.feedback_history = some ["Score: 0.0/10\n" ++ pyStrip resp.content]) := by
  have hlt : ¬ state.iteration_count ≥ MAX_ITERATIONS := Nat.not_le.mpr hit
  have hscore : criticParsedScore resp.content = 0 := by
    unfold criticParsedScore
    rw [hs]
    decide
  unfold criticNode
  rw [if_neg hlt, getLLM_claude]
  simp only [invokeWithTools_const_fst, hscore]
  rw [if_neg (by decide : ¬ ((0 : ℚ) ≥ APPROVAL_THRESHOLD))]
  rw [if_pos (by decide : (("rework" : String) == "rework") = true)]
  refine ⟨_, _, rfl, rfl, rfl, rfl, fun hf => ?_⟩
  have hfb : criticFeedbackText resp.content = pyStrip resp.content := by
    unfold criticFeedbackText
    rw [hf]
  rw [hfb]
  rfl

/-- A model response with a `FEEDBACK:` section but no parsable `SCORE` line,
refuting the "raw response text as feedback" part of C7. -/
def c7Response : LLMResponse :=
  { content := "FEEDBACK: ok", tool_calls := [] }

/-- Counterexample to C7 as stated: on a response whose text is
`FEEDBACK: ok` (no parsable `SCORE` line), the evaluator step appends the
feedback entry built from the `FEEDBACK:` capture `ok`, not from the raw
response text, so the claimed entry differs from the actual one. -/
theorem C7_counterexample :
    (criticNode (constInvoker c7Response) "critic-1" "You are a critic."
        "claude-3-5-sonnet" [] baseState).map (fun r => r.fst.feedback_history) =
      Except.ok (some ["Score: 0.0/10\nok"]) ∧
    c7Response.content = "FEEDBACK: ok" ∧
    some ["Score: 0.0/10\nok"] ≠ some ["Score: 0.0/10\n" ++ c7Response.content] := by
  exact ⟨rfl, rfl, by decide⟩

/-- A model response with neither a `SCORE` line nor a `FEEDBACK:` section,
used to instantiate the amended C7. -/
def c7PlainResponse : LLMResponse :=
  { content := "  no structure here  ", tool_calls := [] }

/-- Witness for the amended C7 at a concrete unparsable response. -/
theorem C7_parse_failure_tolerated_witness :
    findScore c7PlainResponse.content.data = none ∧
    baseState.iteration_count < MAX_ITERATIONS ∧
    (∃ u : StateUpdate, ∃ calls : List (List Message),
      criticNode (fun _ _ => c7PlainResponse) "critic-1" "You are a critic."
          "claude-3-5-sonnet" [] baseState = Except.ok (u, calls) ∧
      u.critic_score = some (some 0) ∧
      u.route_decision = some "rework" ∧
      u.feedback_history = some ["Score: 0.0/10\n" ++ criticFeedbackText c7PlainResponse.content] ∧
      (findFeedback c7PlainResponse.content.data = none →
        u.feedback_history = some ["Score: 0.0/10\n" ++ pyStrip c7PlainResponse.content])) :=
  ⟨by decide, by decide,
   C7_parse_failure_tolerated c7PlainResponse (by decide) "critic-1" "You are a critic."
     [] baseState (by decide)⟩

/-! ## C3: feedback-log growth per evaluator-step execution -/

/-- C3 (amended): for every successful evaluator-step execution, the feedback
log grows by exactly 1 when the resulting routing signal is "rework" and by
exactly 0 when it is "approve" and the model was consulted
(`iterationCount < MAX_ITERATIONS`); the forced-approval safety valve
(`iterationCount ≥ MAX_ITERATIONS`) routes "approve" and nevertheless appends
exactly one synthetic feedback entry. -/
theorem C3_feedback_log_growth (invoker : String → List Message → LLMResponse)
    (node_id system_prompt model_name : String) (tools : List ToolDef)
    (state : CouncilState) (u : StateUpdate) (calls : List (List Message))
    (h : criticNode invoker node_id system_prompt model_name tools state =
      Except.ok (u, calls)) :
    (u.route_decision = some "rework" →
      (applyUpdate state u).feedback_history.length =
        state.feedback_history.length + 1) ∧
    (u.route_decision = some "approve" → state.iteration_count < MAX_ITERATIONS →
      (applyUpdate state u).feedback_history.length =
        state.feedback_history.length) ∧
    (state.iteration_count ≥ MAX_ITERATIONS →
      u.route_decision = some "approve" ∧
      (applyUpdate state u).feedback_history.length =
        state.feedback_history.length + 1) := by
  by_cases hge : state.iteration_count ≥ MAX_ITERATIONS
  · unfold criticNode at h
    rw [if_pos hge] at h
    injection h with h1
    injection h1 with hu hcalls
    subst hu
    refine ⟨fun hr => absurd (Option.some.inj hr) (by decide),
      fun _ hlt => absurd hge (Nat.not_le.mpr hlt),
      fun _ => ⟨rfl, ?_⟩⟩
    simp [applyUpdate]
  · unfold criticNode at h
    rw [if_neg hge] at h
    cases hg : getLLM invoker model_name with
    | error e =>
      rw [hg] at h
      exact absurd h (by simp)
    | ok llm =>
      rw [hg] at h
      dsimp only at h
      split at h
      · injection h with h1
        injection h1 with hu hcalls
        subst hu
        exact ⟨fun hr => absurd (Option.some.inj hr) (by decide),
          fun _ _ => by simp [applyUpdate],
          fun hge2 => absurd hge2 hge⟩
      · injection h with h1
        injection h1 with hu hcalls
        subst hu
        exact ⟨fun _ => by simp [applyUpdate],
          fun ha _ => absurd (Option.some.inj ha) (by decide),
          fun hge2 => absurd hge2 hge⟩

/-- Counterexample to C3 as stated: at a concrete state with
`iteration_count = 5` the evaluator step routes "approve" yet the feedback
log grows from 0 to 1 entries (the synthetic forced-approval entry), so an
approve-routed execution does not always leave the feedback log untouched. -/
theorem C3_counterexample :
    (criticNode (constInvoker emptyResponse) "critic-1" "You are a critic."
        "claude-3-5-sonnet" [] c1State).map
      (fun r => (r.fst.route_decision, (applyUpdate c1State r.fst).feedback_history.length)) =
      Except.ok (some "approve", 1) ∧
    c1State.feedback_history.length = 0 := by
  exact ⟨rfl, rfl⟩

/-- The state update produced by the critic step on `baseState` under the
empty constant model response. -/
def c3wUpdate : StateUpdate :=
  { critic_score := some (some 0)
    route_decision := some "rework"
    messages := some [Message.system (criticSystemText "You are a critic."),
      Message.human (criticUserContent "topic" "draft"), Message.ai emptyResponse]
    active_node := some "critic-1"
    feedback_history := some ["Score: 0.0/10\n"] }

/-- The capability-invocation log of that same critic step. -/
def c3wCalls : List (List Message) :=
  [[Message.system (criticSystemText "You are a critic."),
    Message.human (criticUserContent "topic" "draft")]]

/-- Witness for the amended C3: a concrete rework-routed execution grows the
feedback log by exactly one entry. -/
theorem C3_feedback_log_growth_witness :
    (applyUpdate baseState c3wUpdate).feedback_history.length =
      baseState.feedback_history.length + 1 :=
  (C3_feedback_log_growth (constInvoker emptyResponse) "critic-1" "You are a critic."
      "claude-3-5-sonnet" [] baseState c3wUpdate c3wCalls rfl).1 rfl

/-! ## C5: conditional-edge routing order -/

/-- C5 (amended): for a node with at least one conditional outgoing edge the
router resolves, in order: a routing signal matching a condition label
returns that label's target (a Python dict lookup, so the last edge with a
given label wins); otherwise a nonempty linear fallback target is returned;
otherwise the first declared conditional target. A linear fallback whose
target is the empty string is Python-falsy and is skipped, not returned. -/
theorem C5_router_resolution (e : EdgeSpec) (rest : List EdgeSpec)
    (linear_target : Option String) (state : CouncilState) :
    (∀ t, dictLookup ((e :: rest).map (fun ce => (ce.condition, ce.target)))
        state.route_decision = some t →
      makeRouter (e :: rest) linear_target state = t) ∧
    (dictLookup ((e :: rest).map (fun ce => (ce.condition, ce.target)))
        state.route_decision = none →
      ∀ t, linear_target = some t → t ≠ "" →
        makeRouter (e :: rest) linear_target state = t) ∧
    (dictLookup ((e :: rest).map (fun ce => (ce.condition, ce.target)))
        state.route_decision = none →
      (linear_target = none ∨ linear_target = some "") →
      makeRouter (e :: rest) linear_target state = e.target) := by
  refine ⟨?_, ?_, ?_⟩
  · intro t ht
    simp only [makeRouter]
    rw [ht]
  · intro hnone t hlt hne
    simp only [makeRouter]
    rw [hnone]
    subst hlt
    simp [pyTruthyOptStr, hne]
  · intro hnone hcase
    simp only [makeRouter]
    rw [hnone]
    rcases hcase with h | h <;> subst h <;> simp [pyTruthyOptStr]

/-- A conditional edge used to refute the linear-fallback part of C5. -/
def c5CondEdge : EdgeSpec :=
  { id := "e1", source := "s", target := "A", type := "conditional", condition := "go" }

/-- A state carrying a routing signal that matches no condition label. -/
def c5UnmatchedState : CouncilState :=
  { baseState with route_decision := "unmatched" }

/-- Counterexample to C5 as stated: with one conditional edge (condition
`go`, target `A`), an existing linear fallback target that happens to be the
empty string, and an unmatched routing signal, the router returns the first
conditional target `A` instead of the existing linear fallback target. -/
theorem C5_counterexample :
    makeRouter [c5CondEdge] (some "") c5UnmatchedState = "A" ∧ ("A" : String) ≠ "" := by
  exact ⟨rfl, by decide⟩

/-- The `rework` conditional edge of the claim's concrete scenario. -/
def c5ReworkEdge : EdgeSpec :=
  { id := "e1", source := "critic", target := "A", type := "conditional", condition := "rework" }

/-- The `approve` conditional edge of the claim's concrete scenario. -/
def c5ApproveEdge : EdgeSpec :=
  { id := "e2", source := "critic", target := "B", type := "conditional", condition := "approve" }

/-- A state with routing signal `approve`. -/
def c5ApproveState : CouncilState :=
  { baseState with route_decision := "approve" }

/-- A state with routing signal `unknown`. -/
def c5UnknownState : CouncilState :=
  { baseState with route_decision := "unknown" }

/-- Witness for the amended C5 on the claim's concrete scenario: conditional
edges rework→A and approve→B without linear fallback route `approve` to `B`
and an unmatched signal to the first declared target `A`. -/
theorem C5_router_resolution_witness :
    makeRouter [c5ReworkEdge, c5ApproveEdge] none c5ApproveState = "B" ∧
    makeRouter [c5ReworkEdge, c5ApproveEdge] none c5UnknownState = "A" :=
  ⟨(C5_router_resolution c5ReworkEdge [c5ApproveEdge] none c5ApproveState).1 "B" (by decide),
   (C5_router_resolution c5ReworkEdge [c5ApproveEdge] none c5UnknownState).2.2 (by decide)
     (Or.inl rfl)⟩

/-! ## C8: the tool-call sub-loop -/

/-- C8: when the first capability response carries tool-invocation requests,
every request is executed via `executeToolCall` (the registered tool run on
the supplied arguments; an unregistered name or a raised exception becomes an
inline error string and never an exception), one result record per request is
appended after the original response, the capability is invoked exactly once
more (the log has exactly these two invocations), and that second response is
returned as final with no deeper recursion. -/
theorem C8_tool_subloop_behavior (llm : List Message → LLMResponse)
    (messages : List Message) (tools : List ToolDef)
    (ht : tools ≠ []) (hc : (llm messages).tool_calls ≠ []) :
    invokeWithTools llm messages tools =
      (llm (messages ++ Message.ai (llm messages) ::
          (llm messages).tool_calls.map
            (fun tc => Message.tool (executeToolCall tools tc) tc.id)),
       [messages,
        messages ++ Message.ai (llm messages) ::
          (llm messages).tool_calls.map
            (fun tc => Message.tool (executeToolCall tools tc) tc.id)]) ∧
    (∀ tc : ToolCallReq,
      (dictLookup (tools.map (fun t => (t.name, t))) tc.name = none →
        executeToolCall tools tc = "[Tool Error] Unknown tool: " ++ tc.name) ∧
      (∀ t : ToolDef, dictLookup (tools.map (fun t2 => (t2.name, t2))) tc.name = some t →
        (∀ r, t.run tc.args = Except.ok r → executeToolCall tools tc = r) ∧
        (∀ err, t.run tc.args = Except.error err →
          executeToolCall tools tc = "[Tool Error] " ++ err))) := by
  constructor
  · unfold invokeWithTools
    rw [if_neg (fun hemp => ht (List.isEmpty_iff.mp hemp))]
    rw [if_neg (fun hemp => hc (List.isEmpty_iff.mp hemp))]
  · intro tc
    constructor
    · intro hno
      unfold executeToolCall
      rw [hno]
    · intro t hsome
      constructor
      · intro r hr
        unfold executeToolCall
        rw [hsome]
        dsimp only
        rw [hr]
      · intro err he
        unfold executeToolCall
        rw [hsome]
        dsimp only
        rw [he]

/-- A tool that succeeds, echoing its arguments. -/
def c8Tool : ToolDef :=
  { name := "web_search", run := fun a => Except.ok ("result for " ++ a) }

/-- A tool whose execution raises. -/
def c8FailTool : ToolDef :=
  { name := "pdf_search", run := fun _ => Except.error "boom" }

/-- A capability response requesting one succeeding tool, one raising tool
and one unregistered tool. -/
def c8Response : LLMResponse :=
  { content := "using tools"
    tool_calls := [ { name := "web_search", args := "q1", id := "id1" },
                    { name := "pdf_search", args := "q2", id := "id2" },
                    { name := "ghost", args := "q3", id := "id3" } ] }

/-- A constant capability returning `c8Response`. -/
def c8Llm : List Message → LLMResponse :=
  fun _ => c8Response

/-- The message list sent to the sub-loop in the C8 witness. -/
def c8Messages : List Message :=
  [Message.system "sys", Message.human "hi"]

/-- The registered tools of the C8 witness. -/
def c8Tools : List ToolDef :=
  [c8Tool, c8FailTool]

/-- Witness for C8 at a concrete capability, message list and tool set. -/
theorem C8_tool_subloop_behavior_witness :
    invokeWithTools c8Llm c8Messages c8Tools =
      (c8Llm (c8Messages ++ Message.ai (c8Llm c8Messages) ::
          (c8Llm c8Messages).tool_calls.map
            (fun tc => Message.tool (executeToolCall c8Tools tc) tc.id)),
       [c8Messages,
        c8Messages ++ Message.ai (c8Llm c8Messages) ::
          (c8Llm c8Messages).tool_calls.map
            (fun tc => Message.tool (executeToolCall c8Tools tc) tc.id)]) ∧
    executeToolCall c8Tools { name := "ghost", args := "q3", id := "id3" } =
      "[Tool Error] Unknown tool: ghost" ∧
    executeToolCall c8Tools { name := "pdf_search", args := "q2", id := "id2" } =
      "[Tool Error] boom" ∧
    executeToolCall c8Tools { name := "web_search", args := "q1", id := "id1" } =
      "result for q1" :=
  ⟨(C8_tool_subloop_behavior c8Llm c8Messages c8Tools (by simp [c8Tools])
      (by simp [c8Llm, c8Response])).1,
   ((C8_tool_subloop_behavior c8Llm c8Messages c8Tools (by simp [c8Tools])
      (by simp [c8Llm, c8Response])).2 ⟨"ghost", "q3", "id3"⟩).1 rfl,
   (((C8_tool_subloop_behavior c8Llm c8Messages c8Tools (by simp [c8Tools])
      (by simp [c8Llm, c8Response])).2 ⟨"pdf_search", "q2", "id2"⟩).2 c8FailTool rfl).2 "boom" rfl,
   (((C8_tool_subloop_behavior c8Llm c8Messages c8Tools (by simp [c8Tools])
      (by simp [c8Llm, c8Response])).2 ⟨"web_search", "q1", "id1"⟩).2 c8Tool rfl).1
     "result for q1" rfl⟩

/-! ## C6: entry-node inference -/

/-- C6: for every blueprint, if exactly one node has no incoming edge the
inferred entry node is that node; if every node has an incoming edge (pure
cycle) the inferred entry node is the first node in declaration order, and
this fallback is not an error; and the compiled graph's entry node is exactly
the inferred one. -/
theorem C6_entry_inference (bp : Blueprint) :
    (∀ n0 : NodeSpec,
      bp.nodes.filter (fun n => !(edgeTargets bp.edges).contains n.id) = [n0] →
      entryNodeId bp.nodes bp.edges = n0.id) ∧
    (∀ (n0 : NodeSpec) (rest : List NodeSpec), bp.nodes = n0 :: rest →
      (∀ n ∈ bp.nodes, (edgeTargets bp.edges).contains n.id = true) →
      entryNodeId bp.nodes bp.edges = n0.id) ∧
    (∀ g : CompiledGraph, build_graph_from_blueprint bp = Except.ok g →
      g.entry_node = entryNodeId bp.nodes bp.edges) := by
  refine ⟨?_, ?_, ?_⟩
  · intro n0 hfil
    unfold entryNodeId entryCandidates
    rw [hfil]
    rfl
  · intro n0 rest hnodes hall
    have hempty : entryCandidates bp.nodes bp.edges = [] := by
      unfold entryCandidates
      have : bp.nodes.filter (fun n => !(edgeTargets bp.edges).contains n.id) = [] := by
        rw [List.filter_eq_nil_iff]
        intro n hn
        simpa using hall n hn
      rw [this]
      rfl
    unfold entryNodeId
    rw [hempty, hnodes]
  · intro g hg
    unfold build_graph_from_blueprint at hg
    split_ifs at hg
    injection hg with h1
    rw [← h1]

/-- The writer node of the two-node scenario blueprint. -/
def c6Writer : NodeSpec :=
  { id := "writer", label := "Writer", systemPrompt := "You write.", model := "claude-3-5-sonnet" }

/-- The editor node of the two-node scenario blueprint. -/
def c6Editor : NodeSpec :=
  { id := "editor", label := "Editor", systemPrompt := "You edit.", model := "gpt-4o" }

/-- The writer→editor scenario blueprint. -/
def c6Blueprint : Blueprint :=
  { nodes := [c6Writer, c6Editor]
    edges := [ { id := "e1", source := "writer", target := "editor", type := "linear" } ] }

/-- Witness for C6: in the writer→editor blueprint exactly `writer` has no
incoming edge, and the inferred entry node is `writer`. -/
theorem C6_entry_inference_witness :
    entryNodeId c6Blueprint.nodes c6Blueprint.edges = "writer" :=
  (C6_entry_inference c6Blueprint).1 c6Writer (by decide)

/-! ## C10: several nodes without incoming edges -/

/-- C10: for every blueprint in which more than one node has no incoming
edge (and which is otherwise compilable: nonempty, duplicate-free node ids,
all registered edge references valid, which rules out unrelated failures),
compilation does not fail, and the entry node chosen is the first entry
candidate in declaration order -- the tie is broken silently, with no
ambiguity error. -/
theorem C10_first_of_many_entry_candidates (bp : Blueprint) (c0 c1 : String)
    (cs : List String)
    (hcand : entryCandidates bp.nodes bp.edges = c0 :: c1 :: cs)
    (hd : nodeIdsDupFree bp = true) (hrefs : compileRefsOk bp = true) :
    ∃ g : CompiledGraph,
      build_graph_from_blueprint bp = Except.ok g ∧ g.entry_node = c0 := by
  have hnodes : bp.nodes.isEmpty = false := by
    cases hn : bp.nodes with
    | nil =>
      rw [hn] at hcand
      simp [entryCandidates] at hcand
    | cons a l => rfl
  have hentry : entryNodeId bp.nodes bp.edges = c0 := by
    unfold entryNodeId
    rw [hcand]
  unfold build_graph_from_blueprint
  rw [if_neg (by simp [hnodes]), if_neg (by simp [hd]), if_neg (by simp [hrefs])]
  exact ⟨_, rfl, hentry⟩

/-- First isolated node of the C10 witness blueprint. -/
def c10Alpha : NodeSpec :=
  { id := "alpha", label := "Alpha", systemPrompt := "You write alpha.", model := "claude-3-5-sonnet" }

/-- Second isolated node of the C10 witness blueprint. -/
def c10Beta : NodeSpec :=
  { id := "beta", label := "Beta", systemPrompt := "You write beta.", model := "gpt-4o" }

/-- A blueprint with two nodes and no edges: both nodes lack incoming edges. -/
def c10Blueprint : Blueprint :=
  { nodes := [c10Alpha, c10Beta], edges := [] }

/-- Witness for C10: with two entry candidates, compilation succeeds and the
first candidate `alpha` becomes the entry node. -/
theorem C10_first_of_many_entry_candidates_witness :
    entryCandidates c10Blueprint.nodes c10Blueprint.edges = ["alpha", "beta"] ∧
    (∃ g : CompiledGraph,
      build_graph_from_blueprint c10Blueprint = Except.ok g ∧ g.entry_node = "alpha") :=
  ⟨by decide,
   C10_first_of_many_entry_candidates c10Blueprint "alpha" "beta" [] (by decide)
     (by decide) (by decide)⟩

/-! ## C2: edge-reference validation at compile time -/

/-- Membership characterization for `firstDedupAux`. -/
theorem mem_firstDedupAux (x : String) :
    ∀ (l seen : List String), x ∈ firstDedupAux l seen ↔ (x ∈ l ∧ x ∉ seen) := by
  intro l
  induction l with
  | nil =>
    intro seen
    simp [firstDedupAux]
  | cons y ys ih =>
    intro seen
    unfold firstDedupAux
    by_cases hy : y ∈ seen
    · rw [if_pos hy, ih seen]
      constructor
      · rintro ⟨h1, h2⟩
        exact ⟨List.mem_cons_of_mem _ h1, h2⟩
      · rintro ⟨h1, h2⟩
        rcases List.mem_cons.mp h1 with rfl | h1
        · exact absurd hy h2
        · exact ⟨h1, h2⟩
    · rw [if_neg hy]
      simp only [List.mem_cons, ih (y :: seen)]
      constructor
      · rintro (rfl | ⟨h1, h2⟩)
        · exact ⟨Or.inl rfl, hy⟩
        · exact ⟨Or.inr h1, fun hs => h2 (Or.inr hs)⟩
      · rintro ⟨h1 | h1, h2⟩
        · exact Or.inl h1
        · by_cases hxy : x = y
          · exact Or.inl hxy
          · exact Or.inr ⟨h1, fun hs => hs.elim hxy h2⟩

/-- `firstDedup` preserves membership. -/
theorem mem_firstDedup (x : String) (l : List String) :
    x ∈ firstDedup l ↔ x ∈ l := by
  unfold firstDedup
  rw [mem_firstDedupAux]
  simp

/-- A conditional edge always has both its endpoints registered with the
underlying graph. -/
theorem conditional_refs_registered (edges : List EdgeSpec) (e : EdgeSpec)
    (he : e ∈ edges) (hc : e.type = "conditional") :
    e.source ∈ registeredEdgeRefs edges ∧ e.target ∈ registeredEdgeRefs edges := by
  have hsrc : e.source ∈ firstDedup (edgeSources edges) := by
    rw [mem_firstDedup]
    exact List.mem_map_of_mem _ he
  have hcondmem : e ∈ conditionalEdgesFrom edges e.source := by
    unfold conditionalEdgesFrom
    exact List.mem_filter.mpr ⟨List.mem_filter.mpr ⟨he, by simp⟩, by simp [hc]⟩
  have hne : (conditionalEdgesFrom edges e.source).isEmpty = false := by
    cases hl : conditionalEdgesFrom edges e.source with
    | nil => rw [hl] at hcondmem; exact absurd hcondmem (by simp)
    | cons a l => rfl
  have hfrom : e.source ∈ registeredRefsFrom edges e.source ∧
      e.target ∈ registeredRefsFrom edges e.source := by
    unfold registeredRefsFrom
    rw [if_pos (by simp [hne])]
    exact ⟨List.mem_cons_self _ _,
      List.mem_cons_of_mem _ (List.mem_append_left _ (List.mem_map_of_mem _ hcondmem))⟩
  have hsub : ∀ r, r ∈ registeredRefsFrom edges e.source → r ∈ registeredEdgeRefs edges := by
    intro r hr
    unfold registeredEdgeRefs
    rw [List.mem_flatten]
    exact ⟨registeredRefsFrom edges e.source, List.mem_map_of_mem _ hsrc, hr⟩
  exact ⟨hsub _ hfrom.1, hsub _ hfrom.2⟩

/-- The first linear edge of a source without conditional edges has both its
endpoints registered with the underlying graph. -/
theorem first_linear_refs_registered (edges : List EdgeSpec) (e : EdgeSpec)
    (hhead : (linearEdgesFrom edges e.source).head? = some e)
    (hnc : conditionalEdgesFrom edges e.source = []) :
    e.source ∈ registeredEdgeRefs edges ∧ e.target ∈ registeredEdgeRefs edges := by
  have hlin : e ∈ linearEdgesFrom edges e.source := by
    cases hl : linearEdgesFrom edges e.source with
    | nil => rw [hl] at hhead; exact absurd hhead (by simp)
    | cons a l =>
      rw [hl] at hhead
      have : a = e := by
        injection hhead
      rw [this] at hl ⊢
      exact List.mem_cons_self _ _
  have hmem : e ∈ edges := by
    unfold linearEdgesFrom at hlin
    exact (List.mem_filter.mp (List.mem_filter.mp hlin).1).1
  have hsrc : e.source ∈ firstDedup (edgeSources edges) := by
    rw [mem_firstDedup]
    exact List.mem_map_of_mem _ hmem
  have hfrom : e.source ∈ registeredRefsFrom edges e.source ∧
      e.target ∈ registeredRefsFrom edges e.source := by
    unfold registeredRefsFrom
    rw [hnc]
    simp only [List.isEmpty_nil, Bool.not_true, Bool.false_eq_true, if_false]
    cases hl : linearEdgesFrom edges e.source with
    | nil => rw [hl] at hhead; exact absurd hhead (by simp)
    | cons a l =>
      rw [hl] at hhead
      have ha : a = e := by
        injection hhead
      rw [ha]
      exact ⟨List.mem_cons_self _ _, List.mem_cons_of_mem _ (List.mem_cons_self _ _)⟩
  have hsub : ∀ r, r ∈ registeredRefsFrom edges e.source → r ∈ registeredEdgeRefs edges := by
    intro r hr
    unfold registeredEdgeRefs
    rw [List.mem_flatten]
    exact ⟨registeredRefsFrom edges e.source, List.mem_map_of_mem _ hsrc, hr⟩
  exact ⟨hsub _ hfrom.1, hsub _ hfrom.2⟩

/-- A blueprint whose registered references fail validation does not compile. -/
theorem refs_bad_build_fails (bp : Blueprint) (h : compileRefsOk bp = false) :
    exceptOk (build_graph_from_blueprint bp) = false := by
  unfold build_graph_from_blueprint
  by_cases h1 : bp.nodes.isEmpty = true
  · rw [if_pos h1]
    rfl
  · rw [if_neg h1]
    by_cases h2 : (!nodeIdsDupFree bp) = true
    · rw [if_pos h2]
      rfl
    · rw [if_neg h2, if_pos (by simp [h])]
      rfl

/-- C2 (amended): compilation of a nonempty, duplicate-id-free blueprint
succeeds exactly when every edge reference actually registered with the graph
names a declared node; every conditional edge and the first linear edge of a
conditional-free source are always registered, so a dangling reference there
fails compilation (before any step executes); but linear edges after the
first from a source are silently dropped during registration, so a blueprint
whose only dangling reference sits in such a dropped edge compiles
successfully. -/
theorem C2_edge_reference_validation (bp : Blueprint) :
    (bp.nodes.isEmpty = false → nodeIdsDupFree bp = true →
      (exceptOk (build_graph_from_blueprint bp) = true ↔ compileRefsOk bp = true)) ∧
    (∀ e ∈ bp.edges, e.type = "conditional" →
      (e.source ∉ nodeIds bp ∨ e.target ∉ nodeIds bp) →
      exceptOk (build_graph_from_blueprint bp) = false) ∧
    (∀ e ∈ bp.edges, (linearEdgesFrom bp.edges e.source).head? = some e →
      conditionalEdgesFrom bp.edges e.source = [] →
      (e.source ∉ nodeIds bp ∨ e.target ∉ nodeIds bp) →
      exceptOk (build_graph_from_blueprint bp) = false) := by
  have hfail : ∀ r, r ∈ registeredEdgeRefs bp.edges → r ∉ nodeIds bp →
      exceptOk (build_graph_from_blueprint bp) = false := by
    intro r hr hnot
    apply refs_bad_build_fails
    unfold compileRefsOk
    rw [List.all_eq_false]
    refine ⟨r, hr, ?_⟩
    intro hcont
    exact hnot (List.elem_iff.mp hcont)
  refine ⟨?_, ?_, ?_⟩
  · intro hn hd
    unfold build_graph_from_blueprint
    rw [if_neg (by simp [hn]), if_neg (by simp [hd])]
    cases hc : compileRefsOk bp
    · rw [if_pos (by simp [hc])]
      simp [exceptOk]
    · rw [if_neg (by simp [hc])]
      simp [exceptOk]
  · intro e he hc hbad
    rcases hbad with hb | hb
    · exact hfail _ (conditional_refs_registered bp.edges e he hc).1 hb
    · exact hfail _ (conditional_refs_registered bp.edges e he hc).2 hb
  · intro e he hhead hnc hbad
    rcases hbad with hb | hb
    · exact hfail _ (first_linear_refs_registered bp.edges e hhead hnc).1 hb
    · exact hfail _ (first_linear_refs_registered bp.edges e hhead hnc).2 hb

/-- First node of the dangling-edge counterexample blueprint. -/
def c2NodeA : NodeSpec :=
  { id := "a", label := "A", systemPrompt := "You are a.", model := "claude-3-5-sonnet" }

/-- Second node of the dangling-edge counterexample blueprint. -/
def c2NodeB : NodeSpec :=
  { id := "b", label := "B", systemPrompt := "You are b.", model := "claude-3-5-sonnet" }

/-- A blueprint with a second linear edge from `a` whose target `ghost` is
not a declared node id. -/
def c2BadBlueprint : Blueprint :=
  { nodes := [c2NodeA, c2NodeB]
    edges := [ { id := "e1", source := "a", target := "b", type := "linear" },
               { id := "e2", source := "a", target := "ghost", type := "linear" } ] }

/-- Counterexample to C2 as stated: `c2BadBlueprint` contains an edge whose
target references no existing node id, yet compilation succeeds, because only
the first linear edge of each source is registered with the graph. -/
theorem C2_counterexample :
    exceptOk (build_graph_from_blueprint c2BadBlueprint) = true ∧
    c2BadBlueprint.edges.any
      (fun e => !(nodeIds c2BadBlueprint).contains e.target) = true := by
  exact ⟨rfl, rfl⟩

/-- The dangling conditional edge of the C2 witness blueprint. -/
def c2GhostEdge : EdgeSpec :=
  { id := "e1", source := "a", target := "ghost", type := "conditional", condition := "go" }

/-- A blueprint whose single conditional edge targets an undeclared node. -/
def c2CondBadBlueprint : Blueprint :=
  { nodes := [c2NodeA], edges := [c2GhostEdge] }

/-- Witness for the amended C2: a dangling conditional-edge target makes
compilation fail. -/
theorem C2_edge_reference_validation_witness :
    exceptOk (build_graph_from_blueprint c2CondBadBlueprint) = false :=
  (C2_edge_reference_validation c2CondBadBlueprint).2.1 c2GhostEdge
    (List.mem_cons_self _ _) rfl (Or.inr (by decide))

/-! ## C9: unknown model names fail at step invocation time -/

/-- C9 (amended): a node whose model-choice string is not a recognized model
key raises the fatal `Unknown model` error at step invocation time whenever
the step resolves its model: always for generic agent steps, and for
evaluator steps below the iteration ceiling; the evaluator safety-valve path
(`iterationCount ≥ MAX_ITERATIONS`) returns without resolving the model and
therefore raises nothing. Compilation itself never consults the model choice:
a nonempty, duplicate-free, reference-valid blueprint compiles regardless of
its nodes' model strings. -/
theorem C9_unknown_model_raised_at_invocation :
    (∀ (invoker : String → List Message → LLMResponse) (web pdf : ToolDef)
        (n : NodeSpec) (state : CouncilState),
      MODEL_MAP_KEYS.contains n.model = false →
      (isCriticLike n.systemPrompt = false →
        compileStep invoker web pdf n state =
          Except.error (unknownModelError n.model)) ∧
      (isCriticLike n.systemPrompt = true →
        state.iteration_count < MAX_ITERATIONS →
        compileStep invoker web pdf n state =
          Except.error (unknownModelError n.model)) ∧
      (isCriticLike n.systemPrompt = true →
        state.iteration_count ≥ MAX_ITERATIONS →
        exceptOk (compileStep invoker web pdf n state) = true)) ∧
    (∀ bp : Blueprint, bp.nodes.isEmpty = false → nodeIdsDupFree bp = true →
      compileRefsOk bp = true →
      exceptOk (build_graph_from_blueprint bp) = true) := by
  constructor
  · intro invoker web pdf n state hmod
    refine ⟨?_, ?_, ?_⟩
    · intro hcrit
      unfold compileStep
      rw [if_neg (by simp [hcrit])]
      unfold agentNode getLLM
      rw [if_neg (by rw [hmod]; simp)]
    · intro hcrit hlt
      unfold compileStep
      rw [if_pos hcrit]
      unfold criticNode
      rw [if_neg (Nat.not_le.mpr hlt)]
      unfold getLLM
      rw [if_neg (by rw [hmod]; simp)]
    · intro hcrit hge
      unfold compileStep
      rw [if_pos hcrit]
      unfold criticNode
      rw [if_pos hge]
      rfl
  · intro bp hn hd hrefs
    unfold build_graph_from_blueprint
    rw [if_neg (by simp [hn]), if_neg (by simp [hd]), if_neg (by simp [hrefs])]
    rfl

/-- An evaluator-classified node with an unrecognized model choice. -/
def c9CriticNode : NodeSpec :=
  { id := "crit", label := "Critic", systemPrompt := "You are a critic.",
    model := "nonexistent-model" }

/-- A stub web-search tool. -/
def webStubTool : ToolDef :=
  { name := "web_search", run := fun _ => Except.ok "stub" }

/-- A stub pdf-search tool. -/
def pdfStubTool : ToolDef :=
  { name := "pdf_search", run := fun _ => Except.ok "stub" }

/-- Counterexample to C9 as stated: a critic-classified node with the
unrecognized model `nonexistent-model`, invoked at the iteration ceiling,
returns successfully instead of raising `Unknown model` -- the safety valve
returns before the model is resolved. -/
theorem C9_counterexample :
    MODEL_MAP_KEYS.contains "nonexistent-model" = false ∧
    isCriticLike c9CriticNode.systemPrompt = true ∧
    c1State.iteration_count ≥ MAX_ITERATIONS ∧
    exceptOk (compileStep (constInvoker emptyResponse) webStubTool pdfStubTool
      c9CriticNode c1State) = true := by
  exact ⟨rfl, by decide, by decide, rfl⟩

/-- A generic agent node with an unrecognized model choice. -/
def c9AgentNode : NodeSpec :=
  { id := "ag", label := "Agent", systemPrompt := "You draft documents.",
    model := "nonexistent-model" }

/-- A compilable blueprint containing only the unknown-model agent node. -/
def c9Blueprint : Blueprint :=
  { nodes := [c9AgentNode], edges := [] }

/-- Witness for the amended C9: the unknown-model agent node's blueprint
compiles, and invoking the node's step fails with the `Unknown model` error. -/
theorem C9_unknown_model_raised_at_invocation_witness :
    compileStep (constInvoker emptyResponse) webStubTool pdfStubTool c9AgentNode
        baseState = Except.error (unknownModelError "nonexistent-model") ∧
    exceptOk (build_graph_from_blueprint c9Blueprint) = true :=
  ⟨(C9_unknown_model_raised_at_invocation.1 (constInvoker emptyResponse) webStubTool
      pdfStubTool c9AgentNode baseState rfl).1 (by decide),
   C9_unknown_model_raised_at_invocation.2 c9Blueprint rfl rfl rfl⟩
